import Mathlib

/-!
Shallow embedding of `src/trainer_embedding_corr.py` (the `Trainer` class of the
3d_gan repository): checkpoint loading / epoch parsing, and the training loop
`Trainer.fit` modelled as a trace of observable events (backward passes,
optimizer steps, gradient resets, metric logging, sample saves, checkpoint
saves).  Neural-network forward passes, loss functions and pooling are opaque
in the source (external library calls), so they are parameters of the model
(the `Models` structure); the loop's composition of them is embedded faithfully.

Numeric values flowing through the loop are modelled as rationals.  Wall-clock
time (the ETA print) is not modelled.  The sample-save guard
`step % (num_steps_per_epoch / 10) == 0` evaluates Python float arithmetic; it
is abstracted as a boolean parameter of the loop (no claim depends on it).
-/

namespace ThreeDGan

/-! ### Python string primitives used by `Trainer.load` (line 211) -/

/-- Python `s.split(sep)` for a single-character separator, on character
lists.  `"a.b".split(".") = ["a", "b"]`, `".x".split(".") = ["", "x"]`,
`"".split(".") = [""]`. -/
def pySplit (sep : Char) : List Char → List (List Char)
  | [] => [[]]
  | c :: rest =>
    match pySplit sep rest with
    | [] => [[]]
    | h :: t => if c = sep then [] :: h :: t else (c :: h) :: t

/-- Interprets a list of decimal digit characters as a natural number;
`none` if the list is empty or holds a non-digit. -/
def digitsToNat : List Char → Option Nat
  | [] => none
  | l =>
    if l.all Char.isDigit then
      some (l.foldl (fun a c => a * 10 + (c.toNat - 48)) 0)
    else none

/-- Python `int(s)`: strips surrounding whitespace, allows one leading sign,
then requires a non-empty run of decimal digits; raises `ValueError`
(here: `none`) otherwise.  (Python 3.6 also accepts `_` digit separators;
checkpoint epoch tags never contain them.) -/
def pyInt (s : List Char) : Option Int :=
  let t := ((s.dropWhile Char.isWhitespace).reverse.dropWhile Char.isWhitespace).reverse
  match t with
  | '-' :: rest => (digitsToNat rest).map (fun n => -(n : Int))
  | '+' :: rest => (digitsToNat rest).map (fun n => (n : Int))
  | _ => (digitsToNat t).map (fun n => (n : Int))

/-- Bool test that `sub` occurs at the start of `l` (character lists). -/
def startsWithSub : List Char → List Char → Bool
  | [], _ => true
  | _ :: _, [] => false
  | a :: as, b :: bs => a = b && startsWithSub as bs

/-- Python `sub in s` on character lists: `sub` occurs contiguously in `l`. -/
def isSubOf (sub : List Char) : List Char → Bool
  | [] => startsWithSub sub []
  | c :: rest => startsWithSub sub (c :: rest) || isSubOf sub rest

/-- Python `sub in s` on strings. -/
def strContainsSub (s sub : String) : Bool := isSubOf sub.data s.data

/-! ### `Trainer.load` (lines 199-212) -/

/-- Line 211: `int(gen_path.split(".")[0].split("_")[-1])` — the text of the
FULL path before its first `.`, split on `_`, last token, converted to int. -/
def parse_start_epoch (gen_path : String) : Option Int :=
  let first := (pySplit '.' gen_path.data).headD []
  let tok := (pySplit '_' first).getLastD []
  pyInt tok

/-- Outcome of `Trainer.load`.  `indexError` models the `[0]` indexing of an
empty comprehension (lines 201-204), raised before any `load_state_dict`
call; `valueErrorAfterRestore` models `int(...)` failing at line 211, which
runs after the four `load_state_dict` calls (lines 206-209); `ok` carries
the parsed `start_epoch` and the restored paths. -/
inductive LoadOutcome where
  | indexError
  | valueErrorAfterRestore (restored : List String)
  | ok (start_epoch : Int) (restored : List String)
  deriving DecidableEq, Repr

/-- The checkpoint paths `Trainer.load` restored weights from (in the order
of the `load_state_dict` calls: generator, discriminator, audio encoder,
images encoder); empty when it faulted before restoring. -/
def LoadOutcome.restored : LoadOutcome → List String
  | .indexError => []
  | .valueErrorAfterRestore r => r
  | .ok _ r => r

namespace Trainer

/-- Method `Trainer.load` (lines 199-212).  `paths` stands for the result of
`glob.glob(os.path.join(directory, "*.pth"))` (line 200; order is
filesystem-dependent, hence a parameter).  Lines 201-204 pick the first path
containing each category substring, faulting with `IndexError` if a category
has no match; lines 206-209 restore the four models' weights; line 211 then
parses `start_epoch` from the generator path. -/
def load (paths : List String) : LoadOutcome :=
  match (paths.filter (fun p => strContainsSub p "generator")).head? with
  | none => .indexError
  | some gen_path =>
    match (paths.filter (fun p => strContainsSub p "discriminator")).head? with
    | none => .indexError
    | some disc_path =>
      match (paths.filter (fun p => strContainsSub p "flow_encoder")).head? with
      | none => .indexError
      | some flow_encoder_path =>
        match (paths.filter (fun p => strContainsSub p "audio_deri_encoder")).head? with
        | none => .indexError
        | some audio_deri_encoder_path =>
          match parse_start_epoch gen_path with
          | some e => .ok e [gen_path, disc_path, audio_deri_encoder_path, flow_encoder_path]
          | none => .valueErrorAfterRestore
              [gen_path, disc_path, audio_deri_encoder_path, flow_encoder_path]

end Trainer

/-! ### Data model for `Trainer.fit` -/

/-- The configuration fields the training loop consumes (§6 of the spec;
device placement and data-loading fields configure external collaborators
and do not appear in the loop's observable behaviour modelled here). -/
structure Config where
  batch_size : Nat
  max_epochs : Nat
  fake_corr : Bool
  log_dir : String
  sample_dir : String
  model_dir : String
  deriving DecidableEq, Repr

/-- One batch yielded by the data loader (line 90): a five-tuple
`(example, real_im, landmarks, right_audio, wrong_audio)`.  Tensor contents
are opaque; each is a rational stand-in. -/
structure Batch where
  /-- The source calls this tensor `example`, a reserved word in Lean. -/
  example_im : Rat
  real_im : Rat
  landmarks : Rat
  right_audio : Rat
  wrong_audio : Rat
  deriving DecidableEq, Repr

/-- The opaque external collaborators the loop calls: network forwards
(`Generator`, `Discriminator`, the two correlation encoders), the loss
functions, and pooling.  Only their composition is the repository's code. -/
structure Models where
  /-- Forward `self.generator(example, audio)`, returning `(fake_im, audio_feature)`. -/
  generator : Rat → Rat → Rat × Rat
  /-- Forward `self.discriminator(clip, audio)`, returning a score. -/
  discriminator : Rat → Rat → Rat
  /-- Forward `self.audio_encoder(audio_feature)`. -/
  audio_encoder : Rat → Rat
  /-- Forward `self.images_encoder(clip)`. -/
  images_encoder : Rat → Rat
  /-- Pooling `F.avg_pool1d(x, 16, 16).view(-1, 16)` (lines 128-129, 138). -/
  avg_pool : Rat → Rat
  /-- Loss `self.bce_loss_fn(score, target)`. -/
  bce : Rat → Rat → Rat
  /-- Loss `self.cosine_loss_fn(x, y, target)`. -/
  cosine : Rat → Rat → Rat → Rat

/-- Python `tensor.detach()`: same value, cut from the autograd graph.  The graph
cut is reflected in which gradient buffers a backward pass touches (see
`Trainer.fitStep`); the value is unchanged. -/
def detach (x : Rat) : Rat := x

/-- Whether each model's gradient buffers may hold a nonzero value
(`false` = known all-zero, as after `zero_grad`). -/
structure Grads where
  generator : Bool
  discriminator : Bool
  audio_encoder : Bool
  images_encoder : Bool
  deriving DecidableEq, Repr

/-- The all-zero gradient state; holds for freshly constructed modules
(Trainer.__init__ never runs a backward pass). -/
def Grads.zero : Grads := ⟨false, false, false, false⟩

/-- Which optimizer `step()` is called on: `opt_g`, `opt_d`, `opt_corr`. -/
inductive OptKind where
  | g
  | d
  | corr
  deriving DecidableEq, Repr

/-- Which composite loss a `backward()` call is on: `loss_disc` (line 117)
or `loss_g` (line 142). -/
inductive LossKind where
  | disc
  | gen
  deriving DecidableEq, Repr

/-- Observable events of one `Trainer.fit` run, in program order.
`backward` carries the scalar loss value backpropagated and the gradient
state immediately before the call; `reset` carries the gradient state
immediately after `_reset_gradients` returns; `logValue` is one
`log_value(name, value, global_step)` call; `saveSample` and
`saveCheckpoint` carry the file name written. -/
inductive Ev where
  | backward (k : LossKind) (value : Rat) (gradsBefore : Grads)
  | optStep (k : OptKind)
  | reset (gradsAfter : Grads)
  | logValue (tag : String) (value : Rat) (globalStep : Int)
  | saveSample (filename : String)
  | saveCheckpoint (filename : String)
  deriving DecidableEq, Repr

namespace Trainer

/-- Method `Trainer._reset_gradients` (lines 214-218): `zero_grad()` on the
generator, discriminator, audio encoder and images encoder in turn. -/
def resetGradients (g : Grads) : Grads :=
  let g := { g with generator := false }
  let g := { g with discriminator := false }
  let g := { g with audio_encoder := false }
  let g := { g with images_encoder := false }
  g

/-- One iteration of the inner step loop (lines 90-184).  `n` is
`num_steps_per_epoch`, `sampleCond stepIdx` stands for the float test
`step % (num_steps_per_epoch / 10) == 0` (line 175), `g0` the gradient
state on entry, `cc` the sample-file counter.  Returns the events emitted,
the gradient state and the counter on exit. -/
def fitStep (m : Models) (cfg : Config) (sampleCond : Nat → Bool) (n : Nat)
    (epoch : Int) (stepIdx : Nat) (b : Batch) (g0 : Grads) (cc : Nat) :
    List Ev × Grads × Nat :=
  -- line 104: fake_im, _ = self.generator(example, right_audio)
  let fake_im := (m.generator b.example_im b.right_audio).1
  -- lines 107-109 (fake_im is detached at line 109)
  let D_real := m.discriminator b.real_im b.right_audio
  let D_wrong := m.discriminator b.real_im b.wrong_audio
  let D_fake := m.discriminator (detach fake_im) b.right_audio
  -- lines 111-115
  let loss_real := m.bce D_real 1
  let loss_wrong := m.bce D_wrong 0
  let loss_fake := m.bce D_fake 0
  let loss_disc := loss_real + (1/2 : Rat) * (loss_fake + loss_wrong)
  -- line 117: loss_disc.backward().  The graph reaches only the
  -- discriminator: fake_im was detached, and no encoder is involved.
  let g1 : Grads := { g0 with discriminator := true }
  -- lines 118-119: opt_d.step(); self._reset_gradients()
  let g2 := resetGradients g1
  -- lines 122-129: fresh generator forward (not detached), encoders, pooling
  let gen2 := m.generator b.example_im b.right_audio
  let fake_im2 := gen2.1
  let audio_feature := gen2.2
  let D_fake2 := m.discriminator fake_im2 b.right_audio
  let avg_f_audio := m.avg_pool (m.audio_encoder audio_feature)
  let avg_f_images := m.avg_pool (m.images_encoder b.real_im)
  -- lines 131-134
  let loss_gen := m.bce D_fake2 1
  let loss_cosine := m.cosine avg_f_audio avg_f_images 1
  -- lines 136-140: optional fake-correlation term
  let loss_fake_cosine :=
    m.cosine avg_f_audio (m.avg_pool (m.images_encoder fake_im2)) 1
  let loss_g :=
    if cfg.fake_corr then loss_gen + (1/2 : Rat) * loss_cosine + (1/2 : Rat) * loss_fake_cosine
    else loss_gen + (1/2 : Rat) * loss_cosine
  -- line 142: loss_g.backward().  The graph reaches all four models
  -- (the discriminator through D_fake2).
  let g3 : Grads := ⟨true, true, true, true⟩
  -- lines 144-146: opt_g.step(); opt_corr.step(); self._reset_gradients()
  let g4 := resetGradients g3
  -- lines 150-173: `(step + 1) % 1 == 0 or (step + 1) == n` guards the
  -- progress print and the log_value calls (the print itself and the ETA
  -- arithmetic produce no persisted observable and are not modelled)
  let globalStep : Int := (stepIdx : Int) + (n : Int) * epoch
  let logEvs : List Ev :=
    if (stepIdx + 1) % 1 == 0 || stepIdx + 1 == n then
      [Ev.logValue "discriminator_loss" loss_disc globalStep,
       Ev.logValue "generator_loss" loss_gen globalStep,
       Ev.logValue "cosine_loss" loss_cosine globalStep] ++
      (if cfg.fake_corr then [Ev.logValue "fake_cosine_loss" loss_fake_cosine globalStep]
       else [])
    else []
  -- lines 175-184: sample-image saves and the cc counter
  let sampleEvs : List Ev :=
    if sampleCond stepIdx then
      [Ev.saveSample (cfg.sample_dir ++ "fake_" ++ toString cc ++ ".png"),
       Ev.saveSample (cfg.sample_dir ++ "real_" ++ toString cc ++ ".png")]
    else []
  let cc2 := if sampleCond stepIdx then cc + 1 else cc
  ([Ev.backward .disc loss_disc g0, Ev.optStep .d, Ev.reset g2,
    Ev.backward .gen loss_g g2, Ev.optStep .g, Ev.optStep .corr, Ev.reset g4] ++
    logEvs ++ sampleEvs,
   g4, cc2)

/-- The inner loop over the batches of one epoch, threading gradient state
and the sample counter. -/
def runSteps (m : Models) (cfg : Config) (sampleCond : Nat → Bool) (n : Nat)
    (epoch : Int) : List Batch → Nat → Grads → Nat → List Ev × Grads × Nat
  | [], _, g, cc => ([], g, cc)
  | b :: bs, i, g, cc =>
    let r1 := fitStep m cfg sampleCond n epoch i b g cc
    let r2 := runSteps m cfg sampleCond n epoch bs (i + 1) r1.2.1 r1.2.2
    (r1.1 ++ r2.1, r2.2)

/-- Lines 185-197: at the end of each epoch, `if epoch % 1 == 0` (always
true), save the four state dicts, filename-tagged with the epoch. -/
def checkpointEvents (cfg : Config) (epoch : Int) : List Ev :=
  if epoch % 1 == 0 then
    [Ev.saveCheckpoint (cfg.model_dir ++ "/generator_" ++ toString epoch ++ ".pth"),
     Ev.saveCheckpoint (cfg.model_dir ++ "/discriminator_" ++ toString epoch ++ ".pth"),
     Ev.saveCheckpoint (cfg.model_dir ++ "/audio_deri_encoder_" ++ toString epoch ++ ".pth"),
     Ev.saveCheckpoint (cfg.model_dir ++ "/flow_encoder_" ++ toString epoch ++ ".pth")]
  else []

/-- One iteration of the outer epoch loop: the step loop over this epoch's
batches (line 90), then the checkpoint saves (lines 185-197). -/
def fitEpoch (m : Models) (cfg : Config) (sampleCond : Nat → Bool)
    (batches : List Batch) (epoch : Int) (g : Grads) (cc : Nat) :
    List Ev × Grads × Nat :=
  let r := runSteps m cfg sampleCond batches.length epoch batches 0 g cc
  (r.1 ++ checkpointEvents cfg epoch, r.2)

/-- Python `range(a, b)` over integers. -/
def pyRange (a b : Int) : List Int :=
  (List.range (b - a).toNat).map (fun i => a + (i : Int))

/-- The epoch indices the outer loop iterates (line 89):
`range(self.start_epoch, config.max_epochs)`. -/
def fitEpochs (start_epoch : Int) (max_epochs : Nat) : List Int :=
  pyRange start_epoch max_epochs

/-- The outer loop folded over a list of epoch indices. -/
def runEpochs (m : Models) (cfg : Config) (sampleCond : Nat → Bool)
    (batches : List Batch) : List Int → Grads → Nat → List Ev × Grads × Nat
  | [], g, cc => ([], g, cc)
  | e :: es, g, cc =>
    let r1 := fitEpoch m cfg sampleCond batches e g cc
    let r2 := runEpochs m cfg sampleCond batches es r1.2.1 r1.2.2
    (r1.1 ++ r2.1, r2.2)

/-- Method `Trainer.fit` (lines 82-197) as its trace of observable events.
`batches` stands for one pass of `self.data_loader` (the same list each
epoch; shuffling only permutes it and no claim depends on order across
epochs).  The loop starts with `cc = 0` (line 87) and, on a fresh or
freshly loaded trainer, all-zero gradient buffers. -/
def fit (m : Models) (cfg : Config) (sampleCond : Nat → Bool)
    (batches : List Batch) (start_epoch : Int) : List Ev :=
  (runEpochs m cfg sampleCond batches (fitEpochs start_epoch cfg.max_epochs) Grads.zero 0).1

end Trainer

/-! ### The loss formulas in the spec's words (§8 of the spec)

These definitions follow the spec's sentences, to be compared with the
values the embedded loop computes. -/

/-- Spec: BCE of the (real clip, right audio) score against target 1. -/
def real_term (m : Models) (b : Batch) : Rat :=
  m.bce (m.discriminator b.real_im b.right_audio) 1

/-- Spec: BCE of the (real clip, wrong audio) score against target 0. -/
def wrong_term (m : Models) (b : Batch) : Rat :=
  m.bce (m.discriminator b.real_im b.wrong_audio) 0

/-- Spec: BCE of the score of the generator output detached from its graph
against target 0. -/
def fake_term (m : Models) (b : Batch) : Rat :=
  m.bce (m.discriminator (detach (m.generator b.example_im b.right_audio).1) b.right_audio) 0

/-- Spec: discriminator loss = real_term + 0.5 × (fake_term + wrong_term). -/
def spec_disc_loss (m : Models) (b : Batch) : Rat :=
  real_term m b + (1/2 : Rat) * (fake_term m b + wrong_term m b)

/-- Spec: the adversarial term — BCE of the discriminator's score of the
(fresh, non-detached) fake clip against target 1. -/
def adversarial_term (m : Models) (b : Batch) : Rat :=
  m.bce (m.discriminator (m.generator b.example_im b.right_audio).1 b.right_audio) 1

/-- The temporally average-pooled audio embedding: the audio-side encoder
applied to the generator's intermediate audio feature, then pooled. -/
def pooled_audio (m : Models) (b : Batch) : Rat :=
  m.avg_pool (m.audio_encoder (m.generator b.example_im b.right_audio).2)

/-- The temporally average-pooled image embedding of the real clip. -/
def pooled_images (m : Models) (b : Batch) : Rat :=
  m.avg_pool (m.images_encoder b.real_im)

/-- Spec: cosine-embedding loss over the pooled audio and image embeddings
with target 1. -/
def correlation_term (m : Models) (b : Batch) : Rat :=
  m.cosine (pooled_audio m b) (pooled_images m b) 1

/-- Spec: the fake-correlation term — cosine-embedding loss between the
pooled audio embedding and the pooled image embedding of the fake clip,
target 1. -/
def fake_correlation_term (m : Models) (b : Batch) : Rat :=
  m.cosine (pooled_audio m b)
    (m.avg_pool (m.images_encoder (m.generator b.example_im b.right_audio).1)) 1

/-- Spec: generator loss = adversarial_term + 0.5 × correlation_term, plus
an additional 0.5 × fake_correlation_term exactly when `fake_corr` is set. -/
def spec_gen_loss (m : Models) (fc : Bool) (b : Batch) : Rat :=
  adversarial_term m b + (1/2 : Rat) * correlation_term m b +
    (if fc then (1/2 : Rat) * fake_correlation_term m b else 0)

/-! ### Event classifiers -/

/-- The gradient state recorded immediately before a backward pass. -/
def Ev.gradsBeforeBackward : Ev → Option Grads
  | .backward _ _ g => some g
  | _ => none

/-- The gradient state recorded immediately after a `_reset_gradients` call. -/
def Ev.gradsAfterReset : Ev → Option Grads
  | .reset g => some g
  | _ => none

/-- Whether the event is a `step()` call on the given optimizer. -/
def Ev.isOptStepOf (k : OptKind) : Ev → Bool
  | .optStep k2 => k2 == k
  | _ => false

/-- Whether the event writes a checkpoint file. -/
def Ev.isCheckpointSave : Ev → Bool
  | .saveCheckpoint _ => true
  | _ => false

/-- The `log_value` tag of the event, when it is a logging event. -/
def Ev.logTag : Ev → Option String
  | .logValue tag _ _ => some tag
  | _ => none

/-- The global step of the event, when it is a logging event. -/
def Ev.logStep : Ev → Option Int
  | .logValue _ _ s => some s
  | _ => none

/-! ### Concrete fixtures for evaluating the model -/

/-- A concrete instantiation of the opaque collaborators, for evaluating
the loop on explicit inputs. -/
def mTest : Models where
  generator := fun e a => (e + a, a + 2)
  discriminator := fun c a => c + a
  audio_encoder := fun x => x + 1
  images_encoder := fun x => 2 * x
  avg_pool := fun x => x
  bce := fun s t => s - t
  cosine := fun x y t => x + y + t

/-- A concrete batch. -/
def bTest : Batch := ⟨1, 2, 3, 4, 5⟩

/-- A concrete configuration with `fake_corr = False` and one epoch. -/
def cfgTest : Config := ⟨4, 1, false, "logs/", "samples/", "models"⟩

/-- A concrete configuration for resuming: five epochs. -/
def cfgResume : Config := ⟨4, 5, false, "logs/", "samples/", "models"⟩

/-! ### Shape of one step's events -/

/-- The event list one loop iteration emits, with every loss value named by
its spec-side formula: the discriminator backward (on `spec_disc_loss`)
precedes `opt_d.step()`, the generator backward (on `spec_gen_loss`)
precedes `opt_g.step()` and `opt_corr.step()`, each optimizer step is
followed by a reset leaving all gradients zero, and the logged scalars are
the disc loss, the adversarial term alone, and the correlation term(s). -/
theorem Trainer.fitStep_fst (m : Models) (cfg : Config) (sc : Nat → Bool)
    (n : Nat) (epoch : Int) (i : Nat) (b : Batch) (g : Grads) (cc : Nat) :
    (Trainer.fitStep m cfg sc n epoch i b g cc).1 =
      [Ev.backward .disc (spec_disc_loss m b) g, Ev.optStep .d, Ev.reset Grads.zero,
       Ev.backward .gen (spec_gen_loss m cfg.fake_corr b) Grads.zero,
       Ev.optStep .g, Ev.optStep .corr, Ev.reset Grads.zero] ++
      ((if (i + 1) % 1 == 0 || i + 1 == n then
        [Ev.logValue "discriminator_loss" (spec_disc_loss m b) ((i : Int) + (n : Int) * epoch),
         Ev.logValue "generator_loss" (adversarial_term m b) ((i : Int) + (n : Int) * epoch),
         Ev.logValue "cosine_loss" (correlation_term m b) ((i : Int) + (n : Int) * epoch)] ++
        (if cfg.fake_corr then
          [Ev.logValue "fake_cosine_loss" (fake_correlation_term m b)
            ((i : Int) + (n : Int) * epoch)]
         else [])
       else []) ++
      (if sc i then
        [Ev.saveSample (cfg.sample_dir ++ "fake_" ++ toString cc ++ ".png"),
         Ev.saveSample (cfg.sample_dir ++ "real_" ++ toString cc ++ ".png")]
       else [])) := by
  cases hfc : cfg.fake_corr <;>
    simp [Trainer.fitStep, hfc, spec_disc_loss, spec_gen_loss, real_term, fake_term,
      wrong_term, adversarial_term, correlation_term, fake_correlation_term,
      pooled_audio, pooled_images, detach, Trainer.resetGradients, Grads.zero]

/-- The gradient state a loop iteration exits with is the all-zero state. -/
theorem Trainer.fitStep_grads (m : Models) (cfg : Config) (sc : Nat → Bool)
    (n : Nat) (epoch : Int) (i : Nat) (b : Batch) (g : Grads) (cc : Nat) :
    (Trainer.fitStep m cfg sc n epoch i b g cc).2.1 = Grads.zero := rfl

/-! ### Locating an event of the trace in the loop body -/

/-- The step loop keeps the gradient state zero: entering with all-zero
gradients, it exits with all-zero gradients. -/
theorem Trainer.runSteps_grads (m : Models) (cfg : Config) (sc : Nat → Bool)
    (n : Nat) (epoch : Int) (bs : List Batch) (i : Nat) (cc : Nat) :
    (Trainer.runSteps m cfg sc n epoch bs i Grads.zero cc).2.1 = Grads.zero := by
  induction bs generalizing i cc with
  | nil => rfl
  | cons b bs ih =>
    simp only [Trainer.runSteps]
    rw [Trainer.fitStep_grads]
    exact ih _ _

/-- Every event the step loop emits (from an all-zero gradient state) is an
event of some iteration's body, entered with all-zero gradients. -/
theorem Trainer.mem_runSteps_elim (m : Models) (cfg : Config) (sc : Nat → Bool)
    (n : Nat) (epoch : Int) (bs : List Batch) (i : Nat) (cc : Nat) (ev : Ev)
    (h : ev ∈ (Trainer.runSteps m cfg sc n epoch bs i Grads.zero cc).1) :
    ∃ b ∈ bs, ∃ j c2, ev ∈ (Trainer.fitStep m cfg sc n epoch j b Grads.zero c2).1 := by
  induction bs generalizing i cc with
  | nil => simp [Trainer.runSteps] at h
  | cons b bs ih =>
    simp only [Trainer.runSteps, List.mem_append] at h
    rcases h with h | h
    · exact ⟨b, by simp, i, cc, h⟩
    · rw [Trainer.fitStep_grads] at h
      obtain ⟨b2, hb2, j, c2, hj⟩ := ih _ _ h
      exact ⟨b2, by simp [hb2], j, c2, hj⟩

/-- The epoch loop keeps the gradient state zero. -/
theorem Trainer.runEpochs_grads (m : Models) (cfg : Config) (sc : Nat → Bool)
    (batches : List Batch) (es : List Int) (cc : Nat) :
    (Trainer.runEpochs m cfg sc batches es Grads.zero cc).2.1 = Grads.zero := by
  induction es generalizing cc with
  | nil => rfl
  | cons e es ih =>
    simp only [Trainer.runEpochs, Trainer.fitEpoch]
    rw [Trainer.runSteps_grads]
    exact ih _

/-- Every event the epoch loop emits (from an all-zero gradient state) is
either a checkpoint save of one of the iterated epochs, or an event of one
step's body on one of the batches, entered with all-zero gradients. -/
theorem Trainer.mem_runEpochs_elim (m : Models) (cfg : Config) (sc : Nat → Bool)
    (batches : List Batch) (es : List Int) (cc : Nat) (ev : Ev)
    (h : ev ∈ (Trainer.runEpochs m cfg sc batches es Grads.zero cc).1) :
    (∃ e ∈ es, ev ∈ Trainer.checkpointEvents cfg e) ∨
    (∃ e ∈ es, ∃ b ∈ batches, ∃ j c2,
      ev ∈ (Trainer.fitStep m cfg sc batches.length e j b Grads.zero c2).1) := by
  induction es generalizing cc with
  | nil => simp [Trainer.runEpochs] at h
  | cons e es ih =>
    simp only [Trainer.runEpochs, Trainer.fitEpoch, List.append_assoc,
      List.mem_append] at h
    rcases h with h | h | h
    · obtain ⟨b, hb, j, c2, hj⟩ := Trainer.mem_runSteps_elim _ _ _ _ _ _ _ _ _ h
      exact Or.inr ⟨e, by simp, b, hb, j, c2, hj⟩
    · exact Or.inl ⟨e, by simp, h⟩
    · rw [Trainer.runSteps_grads] at h
      rcases ih _ h with ⟨e2, he2, hm⟩ | ⟨e2, he2, rest⟩
      · exact Or.inl ⟨e2, by simp [he2], hm⟩
      · exact Or.inr ⟨e2, by simp [he2], rest⟩

/-- Every event of a `Trainer.fit` trace is either a checkpoint save of one
of the iterated epochs, or an event of one loop iteration's body on one of
the batches, entered with all-zero gradients. -/
theorem Trainer.mem_fit_elim (m : Models) (cfg : Config) (sc : Nat → Bool)
    (batches : List Batch) (start : Int) (ev : Ev)
    (h : ev ∈ Trainer.fit m cfg sc batches start) :
    (∃ e ∈ Trainer.fitEpochs start cfg.max_epochs, ev ∈ Trainer.checkpointEvents cfg e) ∨
    (∃ e ∈ Trainer.fitEpochs start cfg.max_epochs, ∃ b ∈ batches, ∃ j c2,
      ev ∈ (Trainer.fitStep m cfg sc batches.length e j b Grads.zero c2).1) :=
  Trainer.mem_runEpochs_elim m cfg sc batches _ 0 ev h

/-- Exhaustive case analysis of an event of one loop iteration's body. -/
theorem Trainer.mem_fitStep_cases {m : Models} {cfg : Config} {sc : Nat → Bool}
    {n : Nat} {epoch : Int} {i : Nat} {b : Batch} {g : Grads} {cc : Nat} {ev : Ev}
    (h : ev ∈ (Trainer.fitStep m cfg sc n epoch i b g cc).1) :
    ev = Ev.backward .disc (spec_disc_loss m b) g ∨
    ev = Ev.backward .gen (spec_gen_loss m cfg.fake_corr b) Grads.zero ∨
    ev = Ev.optStep .d ∨ ev = Ev.optStep .g ∨ ev = Ev.optStep .corr ∨
    ev = Ev.reset Grads.zero ∨
    ev = Ev.logValue "discriminator_loss" (spec_disc_loss m b)
      ((i : Int) + (n : Int) * epoch) ∨
    ev = Ev.logValue "generator_loss" (adversarial_term m b)
      ((i : Int) + (n : Int) * epoch) ∨
    ev = Ev.logValue "cosine_loss" (correlation_term m b)
      ((i : Int) + (n : Int) * epoch) ∨
    (cfg.fake_corr = true ∧
      ev = Ev.logValue "fake_cosine_loss" (fake_correlation_term m b)
        ((i : Int) + (n : Int) * epoch)) ∨
    (∃ fn, ev = Ev.saveSample fn) := by
  rw [Trainer.fitStep_fst] at h
  cases hfc : cfg.fake_corr <;> cases hsc : sc i <;>
    simp [hfc, hsc, Nat.mod_one, List.mem_append] at h <;>
    tauto

/-- Lines 185-197 always fire (`epoch % 1 == 0` holds for every integer):
each epoch's checkpoint saves are exactly the four files tagged with it. -/
theorem Trainer.checkpointEvents_eq (cfg : Config) (e : Int) :
    Trainer.checkpointEvents cfg e =
      [Ev.saveCheckpoint (cfg.model_dir ++ "/generator_" ++ toString e ++ ".pth"),
       Ev.saveCheckpoint (cfg.model_dir ++ "/discriminator_" ++ toString e ++ ".pth"),
       Ev.saveCheckpoint (cfg.model_dir ++ "/audio_deri_encoder_" ++ toString e ++ ".pth"),
       Ev.saveCheckpoint (cfg.model_dir ++ "/flow_encoder_" ++ toString e ++ ".pth")] := by
  simp [Trainer.checkpointEvents, Int.emod_emod_of_dvd, Int.emod_one]

/-- A loop iteration's body writes no checkpoint file. -/
theorem Trainer.filter_ckpt_fitStep (m : Models) (cfg : Config) (sc : Nat → Bool)
    (n : Nat) (epoch : Int) (i : Nat) (b : Batch) (g : Grads) (cc : Nat) :
    ((Trainer.fitStep m cfg sc n epoch i b g cc).1).filter Ev.isCheckpointSave = [] := by
  rw [Trainer.fitStep_fst]
  cases hfc : cfg.fake_corr <;> cases hsc : sc i <;>
    simp [hfc, hsc, Nat.mod_one, List.filter_append, Ev.isCheckpointSave]

/-- The step loop writes no checkpoint file. -/
theorem Trainer.filter_ckpt_runSteps (m : Models) (cfg : Config) (sc : Nat → Bool)
    (n : Nat) (epoch : Int) (bs : List Batch) (i : Nat) (g : Grads) (cc : Nat) :
    ((Trainer.runSteps m cfg sc n epoch bs i g cc).1).filter Ev.isCheckpointSave = [] := by
  induction bs generalizing i g cc with
  | nil => rfl
  | cons b bs ih =>
    simp only [Trainer.runSteps, List.filter_append]
    rw [Trainer.filter_ckpt_fitStep, ih]
    rfl

/-- The checkpoint events of the epoch loop are exactly one four-file set
per iterated epoch, in epoch order. -/
theorem Trainer.filter_ckpt_runEpochs (m : Models) (cfg : Config) (sc : Nat → Bool)
    (batches : List Batch) (es : List Int) (g : Grads) (cc : Nat) :
    ((Trainer.runEpochs m cfg sc batches es g cc).1).filter Ev.isCheckpointSave =
      es.flatMap (fun e => Trainer.checkpointEvents cfg e) := by
  induction es generalizing g cc with
  | nil => rfl
  | cons e es ih =>
    simp only [Trainer.runEpochs, Trainer.fitEpoch, List.append_assoc, List.filter_append,
      List.flatMap_cons]
    rw [Trainer.filter_ckpt_runSteps]
    rw [show ∀ l : List Ev, ([] : List Ev) ++ l = l from fun l => rfl]
    congr 1
    · rw [Trainer.checkpointEvents_eq]
      simp [Ev.isCheckpointSave]
    · exact ih _ _

/-- Python's split never yields an empty list of parts. -/
theorem pySplit_ne_nil (sep : Char) (l : List Char) : pySplit sep l ≠ [] := by
  cases l with
  | nil => simp [pySplit]
  | cons c rest =>
    simp only [pySplit]
    rcases pySplit sep rest with _ | ⟨h, t⟩
    · simp
    · by_cases hc : c = sep <;> simp [hc]

/-- When the generator checkpoint path begins with `'.'` (as any path
written `./...` does), the text before the first `.` is empty, so the
epoch token is empty and `int()` fails. -/
theorem parse_start_epoch_dot (rest : List Char) :
    parse_start_epoch (String.mk ('.' :: rest)) = none := by
  unfold parse_start_epoch
  obtain ⟨h1, t1, hht⟩ := List.exists_cons_of_ne_nil (pySplit_ne_nil '.' rest)
  simp [pySplit, hht, pyInt, digitsToNat]

/-- Python `range(a, b)` starts at `a` whenever `a < b`. -/
theorem Trainer.pyRange_head (a b : Int) (h : a < b) :
    (Trainer.pyRange a b).head? = some a := by
  unfold Trainer.pyRange
  obtain ⟨k, hk⟩ := Nat.exists_eq_succ_of_ne_zero (n := (b - a).toNat) (by omega)
  rw [hk, List.range_succ_eq_map]
  simp

/-! ### The claims -/

/-- Claim C3: for every batch, the discriminator loss backpropagated before the
discriminator optimizer step equals `real_term + 0.5 * (fake_term + wrong_term)`,
where `real_term` is BCE of the (real clip, right audio) score against target 1,
`wrong_term` is BCE of the (real clip, wrong audio) score against target 0, and
`fake_term` is BCE of the score of the detached generator output against
target 0.  (The ordering — each `backward` on this value directly precedes the
`opt_d.step()` — is `Trainer.fitStep_fst`.) -/
theorem C3_disc_loss_formula (m : Models) (cfg : Config) (sc : Nat → Bool)
    (batches : List Batch) (start : Int) (v : Rat) (gb : Grads)
    (h : Ev.backward .disc v gb ∈ Trainer.fit m cfg sc batches start) :
    ∃ b ∈ batches, v = spec_disc_loss m b := by
  rcases Trainer.mem_fit_elim _ _ _ _ _ _ h with ⟨e, -, hm⟩ | ⟨e, -, b, hb, j, c2, hm⟩
  · rw [Trainer.checkpointEvents_eq] at hm
    simp at hm
  · rcases Trainer.mem_fitStep_cases hm with
      h1 | h1 | h1 | h1 | h1 | h1 | h1 | h1 | h1 | ⟨-, h1⟩ | ⟨fn, h1⟩
    · rw [Ev.backward.injEq] at h1
      exact ⟨b, hb, h1.2.1⟩
    all_goals simp at h1

/-- Witness for C3 at a concrete run: the discriminator backward value of
the single step (the trace's first event) is the spec formula's value. -/
theorem C3_witness : ∃ b ∈ [bTest], spec_disc_loss mTest bTest = spec_disc_loss mTest b :=
  C3_disc_loss_formula mTest cfgTest (fun _ => false) [bTest] 0
    (spec_disc_loss mTest bTest) Grads.zero (List.Mem.head _)

/-- Claim C4: for every batch, the generator loss backpropagated before the
generator and correlation optimizer steps equals
`adversarial_term + 0.5 * correlation_term`, plus an additional
`0.5 * fake_correlation_term` exactly when `config.fake_corr` is set, the
correlation terms being cosine-embedding losses over the pooled audio and
image embeddings with target 1 (see `spec_gen_loss`). -/
theorem C4_gen_loss_formula (m : Models) (cfg : Config) (sc : Nat → Bool)
    (batches : List Batch) (start : Int) (v : Rat) (gb : Grads)
    (h : Ev.backward .gen v gb ∈ Trainer.fit m cfg sc batches start) :
    ∃ b ∈ batches, v = spec_gen_loss m cfg.fake_corr b := by
  rcases Trainer.mem_fit_elim _ _ _ _ _ _ h with ⟨e, -, hm⟩ | ⟨e, -, b, hb, j, c2, hm⟩
  · rw [Trainer.checkpointEvents_eq] at hm
    simp at hm
  · rcases Trainer.mem_fitStep_cases hm with
      h1 | h1 | h1 | h1 | h1 | h1 | h1 | h1 | h1 | ⟨-, h1⟩ | ⟨fn, h1⟩
    · simp at h1
    · rw [Ev.backward.injEq] at h1
      exact ⟨b, hb, h1.2.1⟩
    all_goals simp at h1

/-- Witness for C4 at a concrete run with `fake_corr = False`: the generator
backward value (the trace's fourth event) is the spec formula's value. -/
theorem C4_witness :
    ∃ b ∈ [bTest],
      adversarial_term mTest bTest + (1/2 : Rat) * correlation_term mTest bTest =
        spec_gen_loss mTest cfgTest.fake_corr b :=
  C4_gen_loss_formula mTest cfgTest (fun _ => false) [bTest] 0
    (adversarial_term mTest bTest + (1/2 : Rat) * correlation_term mTest bTest) Grads.zero
    (List.Mem.tail _ (List.Mem.tail _ (List.Mem.tail _ (List.Mem.head _))))

/-- Claim C6: gradient buffers of all four models are exactly zero immediately
after every `_reset_gradients` call, and immediately before every backward
pass of the loop (`_reset_gradients` follows every optimizer step, so no
stale gradient crosses into the next composite loss). -/
theorem C6_grads_zero_invariant (m : Models) (cfg : Config) (sc : Nat → Bool)
    (batches : List Batch) (start : Int) (ev : Ev)
    (h : ev ∈ Trainer.fit m cfg sc batches start) :
    (∀ g2, ev.gradsAfterReset = some g2 → g2 = Grads.zero) ∧
    (∀ g2, ev.gradsBeforeBackward = some g2 → g2 = Grads.zero) := by
  rcases Trainer.mem_fit_elim _ _ _ _ _ _ h with ⟨e, -, hm⟩ | ⟨e, -, b, hb, j, c2, hm⟩
  · rw [Trainer.checkpointEvents_eq] at hm
    simp only [List.mem_cons, List.not_mem_nil, or_false] at hm
    rcases hm with rfl | rfl | rfl | rfl <;>
      simp [Ev.gradsAfterReset, Ev.gradsBeforeBackward]
  · rcases Trainer.mem_fitStep_cases hm with
      h1 | h1 | h1 | h1 | h1 | h1 | h1 | h1 | h1 | ⟨-, h1⟩ | ⟨fn, h1⟩ <;>
      subst h1 <;>
      exact ⟨fun g2 hg2 => by first
              | exact (Option.some.inj hg2).symm
              | exact Option.noConfusion hg2,
             fun g2 hg2 => by first
              | exact (Option.some.inj hg2).symm
              | exact Option.noConfusion hg2⟩

/-- Counterexample to claim C1 as stated: loading a directory whose generator
checkpoint is tagged with epoch 3 sets `start_epoch = 3`, and the outer loop
`range(start_epoch, max_epochs)` then begins at epoch 3 itself — the first
checkpoint set written after resuming re-saves epoch 3 — not at 3 + 1. -/
theorem C1_cex :
    Trainer.load ["ckpt/generator_3.pth", "ckpt/discriminator_3.pth",
        "ckpt/flow_encoder_3.pth", "ckpt/audio_deri_encoder_3.pth"] =
      LoadOutcome.ok 3 ["ckpt/generator_3.pth", "ckpt/discriminator_3.pth",
        "ckpt/audio_deri_encoder_3.pth", "ckpt/flow_encoder_3.pth"] ∧
    (Trainer.fitEpochs 3 5).head? = some 3 ∧
    ((Trainer.fit mTest cfgResume (fun _ => false) [bTest] 3).filter
        Ev.isCheckpointSave).head? =
      some (Ev.saveCheckpoint "models/generator_3.pth") ∧
    (3 : Int) ≠ 3 + 1 := by
  refine ⟨by decide, by decide, by decide, by decide⟩

/-- Claim C1, amended: when `Trainer.load` parses epoch `E` out of the
generator checkpoint's filename (returning `ok E`), the next epoch trained
by `Trainer.fit` is `E` itself — the saved epoch is trained again — provided
`E < max_epochs`. -/
theorem C1_resume_starts_at_saved_epoch (paths : List String) (E : Int)
    (r : List String) (maxE : Nat)
    (hload : Trainer.load paths = LoadOutcome.ok E r) (hlt : E < (maxE : Int)) :
    (Trainer.fitEpochs E maxE).head? = some E :=
  Trainer.pyRange_head E maxE hlt

/-- Witness for the amended C1 at a concrete checkpoint directory. -/
theorem C1_witness :
    Trainer.load ["ckpt/generator_3.pth", "ckpt/discriminator_3.pth",
        "ckpt/flow_encoder_3.pth", "ckpt/audio_deri_encoder_3.pth"] =
      LoadOutcome.ok 3 ["ckpt/generator_3.pth", "ckpt/discriminator_3.pth",
        "ckpt/audio_deri_encoder_3.pth", "ckpt/flow_encoder_3.pth"] ∧
    (3 : Int) < ((5 : Nat) : Int) ∧ (Trainer.fitEpochs 3 5).head? = some 3 :=
  ⟨by decide, by decide,
   C1_resume_starts_at_saved_epoch
     ["ckpt/generator_3.pth", "ckpt/discriminator_3.pth",
      "ckpt/flow_encoder_3.pth", "ckpt/audio_deri_encoder_3.pth"] 3
     ["ckpt/generator_3.pth", "ckpt/discriminator_3.pth",
      "ckpt/audio_deri_encoder_3.pth", "ckpt/flow_encoder_3.pth"] 5
     (by decide) (by decide)⟩

/-- Claim C8: if any of the four checkpoint categories (matched by filename
substring) has no file in the directory, `Trainer.load` faults with an
index-out-of-range error before restoring any weights. -/
theorem C8_missing_category_index_error (paths : List String)
    (h : (paths.filter (fun p => strContainsSub p "generator")) = [] ∨
         (paths.filter (fun p => strContainsSub p "discriminator")) = [] ∨
         (paths.filter (fun p => strContainsSub p "flow_encoder")) = [] ∨
         (paths.filter (fun p => strContainsSub p "audio_deri_encoder")) = []) :
    Trainer.load paths = LoadOutcome.indexError ∧
    (Trainer.load paths).restored = [] := by
  have hload : Trainer.load paths = LoadOutcome.indexError := by
    unfold Trainer.load
    rcases h with h | h | h | h
    · rw [h]
      rfl
    · rw [h]
      cases hg : (paths.filter (fun p => strContainsSub p "generator")).head? <;> rfl
    · rw [h]
      cases hg : (paths.filter (fun p => strContainsSub p "generator")).head? <;>
        cases hd : (paths.filter (fun p => strContainsSub p "discriminator")).head? <;> rfl
    · rw [h]
      cases hg : (paths.filter (fun p => strContainsSub p "generator")).head? <;>
        cases hd : (paths.filter (fun p => strContainsSub p "discriminator")).head? <;>
        cases hf : (paths.filter (fun p => strContainsSub p "flow_encoder")).head? <;> rfl
  exact ⟨hload, by rw [hload]; rfl⟩

/-- Witness for C8: a directory holding the other three files but no
generator checkpoint. -/
theorem C8_witness :
    (["d/discriminator_3.pth", "d/flow_encoder_3.pth",
        "d/audio_deri_encoder_3.pth"].filter
      (fun p => strContainsSub p "generator")) = [] ∧
    Trainer.load ["d/discriminator_3.pth", "d/flow_encoder_3.pth",
      "d/audio_deri_encoder_3.pth"] = LoadOutcome.indexError :=
  ⟨by decide,
   (C8_missing_category_index_error
     ["d/discriminator_3.pth", "d/flow_encoder_3.pth", "d/audio_deri_encoder_3.pth"]
     (Or.inl (by decide))).1⟩

/-- Counterexample to claim C10 as stated: the directory `x_3.y` contains a
`.` before the filename, yet the integer conversion does NOT fail — `load`
succeeds, parsing 3 (text from the directory name) instead of the epoch
tag 7. -/
theorem C10_cex :
    Trainer.load ["x_3.y/generator_7.pth", "x_3.y/discriminator_7.pth",
        "x_3.y/flow_encoder_7.pth", "x_3.y/audio_deri_encoder_7.pth"] =
      LoadOutcome.ok 3 ["x_3.y/generator_7.pth", "x_3.y/discriminator_7.pth",
        "x_3.y/audio_deri_encoder_7.pth", "x_3.y/flow_encoder_7.pth"] ∧
    (3 : Int) ≠ 7 := by
  refine ⟨by decide, by decide⟩

/-- Claim C10, amended: `Trainer.load` parses the resume epoch from the full
generator path, taking the text before the first `.` of the entire path;
whenever that path begins with `'.'` (any directory written `./...`), the
parsed token is empty, so `int()` fails with a `ValueError` — after the four
weight files, all present and well-formed, were already restored. -/
theorem C10_parse_fails_for_dot_relative_paths (paths : List String)
    (rest : List Char) (d f a : String)
    (hg : (paths.filter (fun p => strContainsSub p "generator")).head? =
      some (String.mk ('.' :: rest)))
    (hd : (paths.filter (fun p => strContainsSub p "discriminator")).head? = some d)
    (hf : (paths.filter (fun p => strContainsSub p "flow_encoder")).head? = some f)
    (ha : (paths.filter (fun p => strContainsSub p "audio_deri_encoder")).head? = some a) :
    Trainer.load paths =
      LoadOutcome.valueErrorAfterRestore [String.mk ('.' :: rest), d, a, f] := by
  unfold Trainer.load
  simp only [hg, hd, hf, ha, parse_start_epoch_dot]

/-- Witness for the amended C10: a `./ckpt` directory with all four files
present, tagged with epoch 5. -/
theorem C10_witness :
    Trainer.load ["./ckpt/generator_5.pth", "./ckpt/discriminator_5.pth",
        "./ckpt/flow_encoder_5.pth", "./ckpt/audio_deri_encoder_5.pth"] =
      LoadOutcome.valueErrorAfterRestore
        [String.mk ('.' :: "/ckpt/generator_5.pth".data), "./ckpt/discriminator_5.pth",
         "./ckpt/audio_deri_encoder_5.pth", "./ckpt/flow_encoder_5.pth"] :=
  C10_parse_fails_for_dot_relative_paths
    ["./ckpt/generator_5.pth", "./ckpt/discriminator_5.pth",
     "./ckpt/flow_encoder_5.pth", "./ckpt/audio_deri_encoder_5.pth"]
    "/ckpt/generator_5.pth".data "./ckpt/discriminator_5.pth"
    "./ckpt/flow_encoder_5.pth" "./ckpt/audio_deri_encoder_5.pth"
    (by decide) (by decide) (by decide) (by decide)

/-- Claim C5: after every completed epoch (every epoch index the outer loop
iterates, from the start epoch up to `max_epochs` exclusive), exactly four
checkpoint files are written to the model directory — generator,
discriminator, audio encoder and image encoder — each filename tagged with
that epoch index. -/
theorem C5_checkpoints_every_epoch (m : Models) (cfg : Config) (sc : Nat → Bool)
    (batches : List Batch) (start : Int) :
    (Trainer.fit m cfg sc batches start).filter Ev.isCheckpointSave =
      (Trainer.fitEpochs start cfg.max_epochs).flatMap (fun e =>
        [Ev.saveCheckpoint (cfg.model_dir ++ "/generator_" ++ toString e ++ ".pth"),
         Ev.saveCheckpoint (cfg.model_dir ++ "/discriminator_" ++ toString e ++ ".pth"),
         Ev.saveCheckpoint (cfg.model_dir ++ "/audio_deri_encoder_" ++ toString e ++ ".pth"),
         Ev.saveCheckpoint (cfg.model_dir ++ "/flow_encoder_" ++ toString e ++ ".pth")]) := by
  unfold Trainer.fit
  rw [Trainer.filter_ckpt_runEpochs]
  simp only [Trainer.checkpointEvents_eq]

/-- Claim C2: with `max_epochs = 1` and a data provider yielding exactly two
batches, the run completes with exactly 2 discriminator optimizer steps,
2 generator optimizer steps, 2 correlation optimizer steps, exactly one
four-file checkpoint set (for epoch 0), and metrics logged at global steps
0 and 1 only. -/
theorem C2_two_batches_one_epoch (m : Models) (cfg : Config) (sc : Nat → Bool)
    (batches : List Batch) (hb : batches.length = 2) (hmax : cfg.max_epochs = 1) :
    ((Trainer.fit m cfg sc batches 0).countP (Ev.isOptStepOf .d) = 2) ∧
    ((Trainer.fit m cfg sc batches 0).countP (Ev.isOptStepOf .g) = 2) ∧
    ((Trainer.fit m cfg sc batches 0).countP (Ev.isOptStepOf .corr) = 2) ∧
    ((Trainer.fit m cfg sc batches 0).filter Ev.isCheckpointSave =
      Trainer.checkpointEvents cfg 0) ∧
    (∀ s : Int, (∃ ev ∈ Trainer.fit m cfg sc batches 0, ev.logStep = some s) ↔
      (s = 0 ∨ s = 1)) := by
  obtain ⟨b1, b2, rfl⟩ := List.length_eq_two.mp hb
  have h0 : Trainer.fitEpochs 0 cfg.max_epochs = [0] := by rw [hmax]; rfl
  unfold Trainer.fit
  rw [h0]
  refine ⟨?_, ?_, ?_, ?_, ?_⟩ <;>
    cases hfc : cfg.fake_corr <;> cases hs0 : sc 0 <;> cases hs1 : sc 1 <;>
      simp [Trainer.runEpochs, Trainer.fitEpoch, Trainer.runSteps, Trainer.fitStep_fst,
        Trainer.fitStep_grads, hfc, hs0, hs1, Ev.isOptStepOf, Ev.isCheckpointSave,
        Ev.logStep, List.countP_append, List.countP_cons, List.filter_append,
        Trainer.checkpointEvents_eq]
  all_goals intro s
  all_goals constructor
  all_goals intro hs
  all_goals omega

/-- Witness for C2: a concrete two-batch, one-epoch run. -/
theorem C2_witness :
    ((Trainer.fit mTest cfgTest (fun _ => false) [bTest, bTest] 0).countP
        (Ev.isOptStepOf .d) = 2) ∧
    ((Trainer.fit mTest cfgTest (fun _ => false) [bTest, bTest] 0).countP
        (Ev.isOptStepOf .g) = 2) ∧
    ((Trainer.fit mTest cfgTest (fun _ => false) [bTest, bTest] 0).countP
        (Ev.isOptStepOf .corr) = 2) ∧
    ((Trainer.fit mTest cfgTest (fun _ => false) [bTest, bTest] 0).filter
        Ev.isCheckpointSave = Trainer.checkpointEvents cfgTest 0) ∧
    (∀ s : Int,
      (∃ ev ∈ Trainer.fit mTest cfgTest (fun _ => false) [bTest, bTest] 0,
        ev.logStep = some s) ↔ (s = 0 ∨ s = 1)) :=
  C2_two_batches_one_epoch mTest cfgTest (fun _ => false) [bTest, bTest] rfl rfl

/-- Claim C7: in every run with `config.fake_corr` false, the fake-correlation
cosine loss is never computed and `fake_cosine_loss` is never logged: no event
of the trace is tagged `fake_cosine_loss`, and every generator backward value
is exactly `adversarial_term + 0.5 * correlation_term` (no fake term). -/
theorem C7_no_fake_corr_when_unset (m : Models) (cfg : Config) (sc : Nat → Bool)
    (batches : List Batch) (start : Int) (hfc : cfg.fake_corr = false) (ev : Ev)
    (h : ev ∈ Trainer.fit m cfg sc batches start) :
    ev.logTag ≠ some "fake_cosine_loss" ∧
    (∀ v gb, ev = Ev.backward .gen v gb →
      ∃ b ∈ batches, v = adversarial_term m b + (1/2 : Rat) * correlation_term m b) := by
  rcases Trainer.mem_fit_elim _ _ _ _ _ _ h with ⟨e, -, hm⟩ | ⟨e, -, b, hb, j, c2, hm⟩
  · rw [Trainer.checkpointEvents_eq] at hm
    simp only [List.mem_cons, List.not_mem_nil, or_false] at hm
    rcases hm with rfl | rfl | rfl | rfl <;>
      exact ⟨by simp [Ev.logTag], fun v gb hveq => by simp at hveq⟩
  · rcases Trainer.mem_fitStep_cases hm with
      h1 | h1 | h1 | h1 | h1 | h1 | h1 | h1 | h1 | ⟨hfc2, h1⟩ | ⟨fn, h1⟩
    · subst h1
      exact ⟨by simp [Ev.logTag], fun v gb hveq => by simp at hveq⟩
    · subst h1
      refine ⟨by simp [Ev.logTag], fun v gb hveq => ?_⟩
      rw [Ev.backward.injEq] at hveq
      exact ⟨b, hb, by simp [← hveq.2.1, spec_gen_loss, hfc]⟩
    · subst h1
      exact ⟨by simp [Ev.logTag], fun v gb hveq => by simp at hveq⟩
    · subst h1
      exact ⟨by simp [Ev.logTag], fun v gb hveq => by simp at hveq⟩
    · subst h1
      exact ⟨by simp [Ev.logTag], fun v gb hveq => by simp at hveq⟩
    · subst h1
      exact ⟨by simp [Ev.logTag], fun v gb hveq => by simp at hveq⟩
    · subst h1
      exact ⟨by simp [Ev.logTag], fun v gb hveq => by simp at hveq⟩
    · subst h1
      exact ⟨by simp [Ev.logTag], fun v gb hveq => by simp at hveq⟩
    · subst h1
      exact ⟨by simp [Ev.logTag], fun v gb hveq => by simp at hveq⟩
    · rw [hfc] at hfc2
      exact Bool.noConfusion hfc2
    · subst h1
      exact ⟨by simp [Ev.logTag], fun v gb hveq => by simp at hveq⟩

/-- Witness for C7 at a concrete run with `fake_corr = False`: the single
step's generator backward value carries no fake-correlation term. -/
theorem C7_witness :
    ∃ b ∈ [bTest],
      adversarial_term mTest bTest + (1/2 : Rat) * correlation_term mTest bTest =
        adversarial_term mTest b + (1/2 : Rat) * correlation_term mTest b :=
  (C7_no_fake_corr_when_unset mTest cfgTest (fun _ => false) [bTest] 0 rfl
      (Ev.backward .gen
        (adversarial_term mTest bTest + (1/2 : Rat) * correlation_term mTest bTest) Grads.zero)
      (List.Mem.tail _ (List.Mem.tail _ (List.Mem.tail _ (List.Mem.head _))))).2
    _ Grads.zero rfl

/-- Claim C9: the scalar logged under `generator_loss` is only the adversarial
BCE term of the generator update, not the combined loss that is actually
backpropagated (which also holds the 0.5-weighted correlation term): every
`generator_loss` log event's value is `adversarial_term` alone, and at a
concrete instance the adversarial term differs from the combined loss. -/
theorem C9_generator_loss_is_adv_only :
    (∀ (m : Models) (cfg : Config) (sc : Nat → Bool) (batches : List Batch) (start : Int)
        (v : Rat) (s : Int),
      Ev.logValue "generator_loss" v s ∈ Trainer.fit m cfg sc batches start →
      ∃ b ∈ batches, v = adversarial_term m b) ∧
    adversarial_term mTest bTest ≠ spec_gen_loss mTest cfgTest.fake_corr bTest := by
  constructor
  · intro m cfg sc batches start v s h
    rcases Trainer.mem_fit_elim _ _ _ _ _ _ h with ⟨e, -, hm⟩ | ⟨e, -, b, hb, j, c2, hm⟩
    · rw [Trainer.checkpointEvents_eq] at hm
      simp at hm
    · rcases Trainer.mem_fitStep_cases hm with
        h1 | h1 | h1 | h1 | h1 | h1 | h1 | h1 | h1 | ⟨-, h1⟩ | ⟨fn, h1⟩
      · simp at h1
      · simp at h1
      · simp at h1
      · simp at h1
      · simp at h1
      · simp at h1
      · simp at h1
      · rw [Ev.logValue.injEq] at h1
        exact ⟨b, hb, h1.2.1⟩
      · simp at h1
      · simp at h1
      · simp at h1
  · norm_num [adversarial_term, spec_gen_loss, correlation_term, pooled_audio,
      pooled_images, cfgTest, mTest, bTest]

/-- Witness for C9 at a concrete run: the logged `generator_loss` value at
global step 0 is the adversarial term. -/
theorem C9_witness :
    ∃ b ∈ [bTest], adversarial_term mTest bTest = adversarial_term mTest b :=
  C9_generator_loss_is_adv_only.1 mTest cfgTest (fun _ => false) [bTest] 0
    (adversarial_term mTest bTest) 0
    (List.Mem.tail _ (List.Mem.tail _ (List.Mem.tail _ (List.Mem.tail _ (List.Mem.tail _
      (List.Mem.tail _ (List.Mem.tail _ (List.Mem.tail _ (List.Mem.head _)))))))))

/-- Witness for C6 at a concrete run. -/
theorem C6_witness :
    Ev.reset Grads.zero ∈ Trainer.fit mTest cfgTest (fun _ => false) [bTest] 0 ∧
    (∀ g2, (Ev.reset Grads.zero).gradsAfterReset = some g2 → g2 = Grads.zero) :=
  ⟨by decide,
   (C6_grads_zero_invariant mTest cfgTest (fun _ => false) [bTest] 0 _ (by decide)).1⟩

end ThreeDGan
